import Mathlib

/-!
Shallow embedding of the blood-cancer triage logic of this repository
(`model_handler.py`, `backend.py`, `chatbot.py`) and proofs about it.

Python floats are modelled as rationals (`ℚ`): every operation the claims
touch (sums, division by the image count, comparison against the literal
thresholds 5, 10, 20) is exact arithmetic on such values.
-/

namespace AL

/-- Source: `ModelHandler.classes` (model_handler.py line 13). -/
def classes : List String :=
  ["monocyte", "myeloblast", "erythroblast", "segmented_neutrophil", "basophil"]

/-- Errors `ModelHandler.assess_risk` can raise: `invalidInput` is the
`ValueError("Myeloblast class not found in model classes.")` guard,
`indexError` the numpy index error on an out-of-range access. -/
inductive RiskError where
  | invalidInput
  | indexError
deriving DecidableEq

/-- Source: `ModelHandler.assess_risk` (model_handler.py lines 79-97),
parametrised by the class list `cs` of the handler (the code reads it from
`self.classes`) and the prediction vector. `predictions[idx] * 100` is the myeloblast percentage. -/
def assess_risk (cs : List String) (predictions : List ℚ) :
    Except RiskError (String × String) :=
  if "myeloblast" ∉ cs then .error .invalidInput
  else
    match predictions[cs.indexOf "myeloblast"]? with
    | none => .error .indexError
    | some p =>
      let myeloblast_percentage := p * 100
      if myeloblast_percentage > 20 then
        .ok ("High", "Immediate medical attention required")
      else if myeloblast_percentage > 10 then
        .ok ("Moderate", "Further evaluation recommended")
      else
        .ok ("Low", "Regular monitoring advised")

/-- Source: `ModelHandler.generate_recommendations` (model_handler.py lines 99-123):
a dict lookup with default `["Consult with healthcare provider"]`. -/
def generate_recommendations (risk_level : String) : List String :=
  if risk_level = "High" then
    ["Schedule immediate hematologist consultation",
     "Complete blood count (CBC) test recommended",
     "Bone marrow biopsy may be necessary",
     "Follow-up within 24-48 hours",
     "Monitor for fever, fatigue, and unusual bleeding"]
  else if risk_level = "Moderate" then
    ["Schedule follow-up within one week",
     "Regular blood count monitoring",
     "Track any new symptoms",
     "Additional testing may be needed",
     "Maintain detailed symptom diary"]
  else if risk_level = "Low" then
    ["Continue regular check-ups as scheduled",
     "Monitor for any changes in symptoms",
     "Maintain regular blood test schedule",
     "Follow healthy lifestyle recommendations",
     "Report any new symptoms to healthcare provider"]
  else
    ["Consult with healthcare provider"]

/-- A per-image cell-type percentage map over the 5 fixed labels
(the `cell_counts` dict built in backend.py lines 347-350). -/
structure CellCounts where
  monocyte : ℚ
  myeloblast : ℚ
  erythroblast : ℚ
  segmented_neutrophil : ℚ
  basophil : ℚ
deriving DecidableEq

/-- The zero-initialised accumulator `total_cell_counts` (backend.py 323-329). -/
def zeroCounts : CellCounts := ⟨0, 0, 0, 0, 0⟩

/-- Pointwise accumulation `total_cell_counts[cell] += val` (backend.py 352-353). -/
def addCounts (a b : CellCounts) : CellCounts :=
  ⟨a.monocyte + b.monocyte, a.myeloblast + b.myeloblast,
   a.erythroblast + b.erythroblast,
   a.segmented_neutrophil + b.segmented_neutrophil, a.basophil + b.basophil⟩

/-- Pointwise division `total_cell_counts[cell] /= num_images` (backend.py 356-357). -/
def divCounts (a : CellCounts) (n : ℚ) : CellCounts :=
  ⟨a.monocyte / n, a.myeloblast / n, a.erythroblast / n,
   a.segmented_neutrophil / n, a.basophil / n⟩

/-- A FastAPI `HTTPException(status_code, detail)`. -/
structure HTTPException where
  status_code : Nat
  detail : String
deriving DecidableEq

/-- The batch risk rule inlined in `analyze_batch` (backend.py lines 363-371). -/
def batch_risk (aggregated_myeloblast aggregated_erythroblast : ℚ) :
    String × String :=
  if aggregated_myeloblast > 20 ∨ aggregated_erythroblast > 10 then
    ("High", "Immediate medical attention required")
  else if aggregated_myeloblast > 10 ∨ aggregated_erythroblast > 5 then
    ("Moderate", "Further evaluation recommended")
  else
    ("Low", "Regular monitoring advised")

/-- The final analysis data assembled by `analyze_batch` (backend.py 376-386). -/
structure BatchResult where
  cell_counts : CellCounts
  risk_level : String
  risk_message : String
  recommendations : List String
deriving DecidableEq

/-- Body of the `analyze_batch` endpoint (backend.py lines 318-371), taking the
per-image percentage maps produced by the per-image inference calls (the
external model collaborator). The empty check raises
`HTTPException(400, "No files uploaded")`; otherwise the accumulator is summed
over the images and divided by `num_images`, and the batch risk rule is applied
once to the averaged map. -/
def analyze_batch_body (maps : List CellCounts) :
    Except HTTPException BatchResult :=
  if maps.isEmpty then .error ⟨400, "No files uploaded"⟩
  else
    let num_images : ℚ := maps.length
    let total_cell_counts := maps.foldl addCounts zeroCounts
    let avg := divCounts total_cell_counts num_images
    let rm := batch_risk avg.myeloblast avg.erythroblast
    .ok ⟨avg, rm.1, rm.2, generate_recommendations rm.1⟩

/-- The `analyze_batch` endpoint as observed by the client: its whole body runs
inside `try: ... except Exception as e: raise HTTPException(500, "Batch image
processing error")` (backend.py lines 318, 408-410). `fastapi.HTTPException`
derives from `Exception`, so any exception the body raises — including the
400 raised for an empty upload list — is caught and re-raised as this 500. -/
def analyze_batch (maps : List CellCounts) : Except HTTPException BatchResult :=
  match analyze_batch_body maps with
  | .error _ => .error ⟨500, "Batch image processing error"⟩
  | .ok r => .ok r

deriving instance DecidableEq for Except

/- ----------------------------------------------------------------- -/
/- Chatbot (chatbot.py)                                              -/
/- ----------------------------------------------------------------- -/

/-- Tests whether `needle` is a leading segment of `hay` (character-wise). -/
def charsLead : List Char → List Char → Bool
  | _, [] => true
  | [], _ :: _ => false
  | c :: cs, d :: ds => c == d && charsLead cs ds

/-- Tests whether `needle` occurs contiguously somewhere in `hay`. -/
def charsHas : List Char → List Char → Bool
  | [], ds => ds.isEmpty
  | c :: cs, ds => charsLead (c :: cs) ds || charsHas cs ds

/-- The Python substring test `needle in hay`. -/
def strContains (hay needle : String) : Bool :=
  charsHas hay.toList needle.toList

/-- The Python `str.lower`, applied characterwise. -/
def toLowerStr (s : String) : String := ⟨s.data.map Char.toLower⟩

/-- Source: `LanguageHandler.emergency_keywords` (chatbot.py lines 34-38), with the
dict lookup defaulting to the English list (line 55). -/
def emergency_keywords (language : String) : List String :=
  if language = "English" then
    ["emergency", "severe", "urgent", "critical", "immediate", "life-threatening"]
  else if language = "Spanish" then
    ["emergencia", "grave", "urgente", "crítico", "inmediato", "riesgo vital"]
  else if language = "French" then
    ["urgence", "grave", "urgent", "critique", "immédiat", "danger de mort"]
  else
    ["emergency", "severe", "urgent", "critical", "immediate", "life-threatening"]

/-- Source: `LanguageHandler.is_emergency` (chatbot.py lines 51-56): lowercase the
query and look for any keyword of the language plus three fixed extras. -/
def is_emergency (query language : String) : Bool :=
  let q := toLowerStr query
  ((emergency_keywords language)
    ++ ["immediate help", "911", "emergency room"]).any (fun k => strContains q k)

/-- Source: `LanguageHandler.translations` (chatbot.py lines 11-32): per-language
replacement pairs; unknown languages get the empty dict. -/
def translations (target_lang : String) : List (String × String) :=
  if target_lang = "French" then
    [("Hello", "Bonjour"), ("Emergency Alert", "Alerte d\x27urgence"),
     ("Medical Attention Required", "Attention médicale requise"),
     ("Symptoms", "Symptômes"), ("Treatment", "Traitement"),
     ("Diagnosis", "Diagnostic"), ("Prevention", "Prévention"),
     ("Please consult a doctor", "Veuillez consulter un médecin")]
  else if target_lang = "Spanish" then
    [("Hello", "Hola"), ("Emergency Alert", "Alerta de Emergencia"),
     ("Medical Attention Required", "Atención Médica Requerida"),
     ("Symptoms", "Síntomas"), ("Treatment", "Tratamiento"),
     ("Diagnosis", "Diagnóstico"), ("Prevention", "Prevención"),
     ("Please consult a doctor", "Por favor consulte a un médico")]
  else []

/-- Source: `LanguageHandler.translate` (chatbot.py lines 40-49): identity for
English, otherwise apply each replacement pair in order. -/
def translate (text target_lang : String) : String :=
  if target_lang = "English" then text
  else (translations target_lang).foldl (fun t p => t.replace p.1 p.2) text

/-- One entry of the list returned by
`MedicalKnowledgeBase.find_relevant_information` (chatbot.py lines 191-221);
only the fields `_format_response` reads are modelled. The TF-IDF matcher
itself (sklearn vectorizer and cosine similarity) is an external numeric
collaborator and is passed to `get_response` as an opaque function. -/
structure Info where
  category : String
  text : String
deriving DecidableEq

/-- A value of the response dict built by `get_response`. -/
inductive ChatVal where
  | str (s : String)
  | bool (b : Bool)
  | infos (l : List Info)
deriving DecidableEq

/-- Source: `FreeMedicalChatbot._format_response` (chatbot.py lines 235-299).
The Python `category.title()` is modelled by `String.capitalize`; every
category in the knowledge base is a single lowercase word, where the two
agree. -/
def format_response (info_list : List Info) (query : String) : String :=
  if info_list.isEmpty then
    let query_lower := toLowerStr query
    if strContains query_lower "symptom" then
      "Common blood cancer symptoms include:\n• Persistent fatigue and weakness\n• Frequent infections\n• Easy bruising or bleeding\n• Bone/joint pain\n• Night sweats and fever\n• Unexplained weight loss"
    else if strContains query_lower "prevent" then
      "Blood cancer prevention measures include:\n• Maintain a healthy lifestyle\n• Regular exercise and balanced diet\n• Regular medical check-ups\n• Avoid exposure to harmful chemicals\n• Monitor for early warning signs"
    else if strContains query_lower "treat" then
      "Blood cancer treatment options include:\n• Chemotherapy\n• Radiation Therapy\n• Stem Cell Transplantation\n• Targeted Therapy\n• Immunotherapy"
    else if strContains query_lower "diagnos" then
      "Blood cancer diagnosis involves:\n• Complete Blood Count (CBC)\n• Bone Marrow Biopsy\n• Flow Cytometry\n• Genetic Testing\n• Imaging Tests"
    else
      "I can provide information about blood cancer symptoms, diagnosis, treatment, and prevention. What would you like to know?"
  else
    let categories := info_list.foldl (fun acc i =>
      if acc.any (fun p => p.1 == i.category) then
        acc.map (fun p => if p.1 = i.category then (p.1, p.2 ++ [i.text]) else p)
      else acc ++ [(i.category, [i.text])]) ([] : List (String × List String))
    String.intercalate "\n\n" (categories.map (fun p =>
      String.intercalate "\n"
        ((p.1.capitalize ++ " Information:") :: (p.2.take 3).map (fun t => "• " ++ t))))

/-- An entry of `FreeMedicalChatbot.conversation_history` (chatbot.py 324-328). -/
structure HistEntry where
  query : String
  response : String
  timestamp : String
deriving DecidableEq

/-- Source: `FreeMedicalChatbot.max_history` (chatbot.py line 230). -/
def max_history : Nat := 5

/-- The canned emergency message of the override branch
(chatbot.py lines 306-308): a fixed English string, translated when the
request language is not English. -/
def canned_emergency (language : String) : String :=
  let emergency_msg := "EMERGENCY: Please seek immediate medical attention!"
  if language ≠ "English" then translate emergency_msg language else emergency_msg

/-- Source: `FreeMedicalChatbot.get_response` (chatbot.py lines 301-340).
`findRelevant` stands for `self.kb.find_relevant_information` (the TF-IDF
matcher, an external numeric collaborator); `now` for
`datetime.utcnow().isoformat()`. The mutable `self.conversation_history` is
passed and returned explicitly. The emergency branch returns before the
history is touched and its dict has no `relevant_info` key. -/
def get_response (findRelevant : String → List Info)
    (query language now : String) (conversation_history : List HistEntry) :
    List (String × ChatVal) × List HistEntry :=
  if is_emergency query language then
    let emergency_msg := "EMERGENCY: Please seek immediate medical attention!"
    let emergency_msg :=
      if language ≠ "English" then translate emergency_msg language else emergency_msg
    ([("response", .str emergency_msg), ("is_emergency", .bool true),
      ("language", .str language)], conversation_history)
  else
    let relevant_info := findRelevant query
    let response := format_response relevant_info query
    let response :=
      if language ≠ "English" then translate response language else response
    let history := conversation_history ++ [⟨query, response, now⟩]
    let history :=
      if history.length > max_history then
        history.drop (history.length - max_history)
      else history
    ([("response", .str response), ("is_emergency", .bool false),
      ("relevant_info", .infos relevant_info), ("language", .str language),
      ("timestamp", .str now)], history)

/-- Iterate `get_response` over a sequence of (query, language, now) calls,
threading the conversation history, as repeated requests to the process-wide
chatbot instance do. -/
def runChat (findRelevant : String → List Info) :
    List (String × String × String) → List HistEntry → List HistEntry
  | [], h => h
  | (q, l, n) :: rest, h =>
    runChat findRelevant rest (get_response findRelevant q l n h).2

/- ----------------------------------------------------------------- -/
/- Persistence model (backend.py)                                    -/
/- ----------------------------------------------------------------- -/

/-- A row of the `users` table (backend.py lines 65-91). -/
structure UserRec where
  id : Nat
  username : String
  email : String
  hashed_password : String
  role : String
  is_active : Bool
  created_at : Nat
  last_login : Option Nat
deriving DecidableEq

/-- A row of the `analyses` table (backend.py lines 93-104); the stored
results JSON is summarised by its cell-count map. -/
structure AnalysisRec where
  user_id : Nat
  risk_level : String
  cell_counts : CellCounts
deriving DecidableEq

/-- A row of the `chat_logs` table (backend.py lines 169-179). -/
structure ChatLogRec where
  user_id : Nat
  message : String
  response : String
deriving DecidableEq

/-- A row of the `appointments` table (backend.py lines 106-126). -/
structure AppointmentRec where
  patient_id : Nat
  doctor_id : Nat
  date : Nat
  status : String
  notes : Option String
deriving DecidableEq

/-- The persistent state an endpoint can touch: the four tables plus the
process-wide chatbot history (`global_chatbot`, backend.py line 412). -/
structure DBState where
  users : List UserRec
  analyses : List AnalysisRec
  chat_logs : List ChatLogRec
  appointments : List AppointmentRec
  chat_history : List HistEntry
deriving DecidableEq

/-- The REST endpoints of backend.py with the request data each one reads.
`register` carries the id and creation time the database assigns. -/
inductive Op where
  | register (username email role hashed_password : String) (id createdAt : Nat)
  | login (username password : String) (now : Nat)
  | analyzeBatch (userId : Nat) (maps : List CellCounts)
  | chat (userId : Nat) (text language now : String)
  | createAppointment (patientId doctorId : Nat) (date : Nat) (notes : Option String)
  | getReports (userId : Nat)
  | getPatients
  | getPatientHistory (patientId : Nat)
  | getAppointments (userId : Nat)
  | getDoctors
  | getActivePatients

/-- Whether an operation is the login endpoint. -/
def isLogin : Op → Bool
  | .login _ _ _ => true
  | _ => false

/-- Source: `user.last_login = datetime.utcnow()` on the row found by
`filter(User.username == ...).first()` (backend.py lines 285, 294):
update the first user with the given (unique-indexed) username. -/
def setLastLogin (name : String) (now : Nat) : List UserRec → List UserRec
  | [] => []
  | u :: us =>
    if u.username = name then { u with last_login := some now } :: us
    else u :: setLastLogin name now us

/-- The database effect of each endpoint of backend.py. `verify` stands for
`pwd_context.verify` (bcrypt, external), `findRelevant` for the TF-IDF
matcher of the chatbot. Read-only endpoints leave the state unchanged; error paths
roll back, leaving it unchanged as well. -/
def applyOp (verify : String → String → Bool)
    (findRelevant : String → List Info) (op : Op) (s : DBState) : DBState :=
  match op with
  | .register username email role hashed_password id createdAt =>
    if s.users.any (fun u => u.username == username) then s
    else if s.users.any (fun u => u.email == email) then s
    else { s with users := s.users ++
      [⟨id, username, email, hashed_password, role, true, createdAt, none⟩] }
  | .login username password now =>
    match s.users.find? (fun u => u.username == username) with
    | none => s
    | some u =>
      if verify password u.hashed_password then
        { s with users := setLastLogin username now s.users }
      else s
  | .analyzeBatch userId maps =>
    match analyze_batch_body maps with
    | .error _ => s
    | .ok r =>
      { s with analyses := s.analyses ++ [⟨userId, r.risk_level, r.cell_counts⟩] }
  | .chat userId text language now =>
    let rh := get_response findRelevant text language now s.chat_history
    let respText := match (rh.1.find? (fun p => p.1 == "response")).map Prod.snd with
      | some (.str t) => t
      | _ => ""
    { s with chat_logs := s.chat_logs ++ [⟨userId, text, respText⟩],
             chat_history := rh.2 }
  | .createAppointment patientId doctorId date notes =>
    if s.users.any (fun u => u.id == doctorId && u.role == "doctor" && u.is_active) then
      { s with appointments := s.appointments ++
        [⟨patientId, doctorId, date, "scheduled", notes⟩] }
    else s
  | .getReports _ => s
  | .getPatients => s
  | .getPatientHistory _ => s
  | .getAppointments _ => s
  | .getDoctors => s
  | .getActivePatients => s

/-- The structural User fields: everything but `last_login`. -/
def sameCore (u v : UserRec) : Prop :=
  v.id = u.id ∧ v.username = u.username ∧ v.email = u.email ∧
  v.hashed_password = u.hashed_password ∧ v.role = u.role ∧
  v.created_at = u.created_at

/- ----------------------------------------------------------------- -/
/- Theorems                                                          -/
/- ----------------------------------------------------------------- -/

/-- Unfolding of `assess_risk` at the fixed class list of the handler: the
myeloblast index is 1. -/
theorem assess_risk_eq (p : List ℚ) :
    assess_risk classes p =
      (match (p[1]? : Option ℚ) with
      | none => .error .indexError
      | some m =>
        if m * 100 > 20 then .ok ("High", "Immediate medical attention required")
        else if m * 100 > 10 then .ok ("Moderate", "Further evaluation recommended")
        else .ok ("Low", "Regular monitoring advised")
        : Except RiskError (String × String)) := rfl

/-- C1: for a single-image prediction vector, `assess_risk` returns tier
"High" with its message iff the myeloblast percentage (probability × 100)
is strictly above 20, "Moderate" with its message iff it is in (10, 20],
and "Low" with its message otherwise (iff it is at most 10). -/
theorem assess_risk_thresholds (predictions : List ℚ) (m : ℚ)
    (h : predictions[1]? = some m) :
    (assess_risk classes predictions
        = .ok ("High", "Immediate medical attention required") ↔ m * 100 > 20) ∧
    (assess_risk classes predictions
        = .ok ("Moderate", "Further evaluation recommended")
      ↔ (m * 100 > 10 ∧ m * 100 ≤ 20)) ∧
    (assess_risk classes predictions
        = .ok ("Low", "Regular monitoring advised") ↔ m * 100 ≤ 10) := by
  have hHM : (Except.ok ("High", "Immediate medical attention required")
      : Except RiskError (String × String))
      ≠ .ok ("Moderate", "Further evaluation recommended") := by decide
  have hHL : (Except.ok ("High", "Immediate medical attention required")
      : Except RiskError (String × String))
      ≠ .ok ("Low", "Regular monitoring advised") := by decide
  have hML : (Except.ok ("Moderate", "Further evaluation recommended")
      : Except RiskError (String × String))
      ≠ .ok ("Low", "Regular monitoring advised") := by decide
  rw [assess_risk_eq, h]
  simp only
  split_ifs with h20 h10
  · exact ⟨iff_of_true rfl h20,
      iff_of_false hHM (by rintro ⟨_, hle⟩; linarith),
      iff_of_false hHL (by intro hle; linarith)⟩
  · exact ⟨iff_of_false (Ne.symm hHM) h20,
      iff_of_true rfl ⟨h10, by linarith⟩,
      iff_of_false hML (by intro hle; linarith)⟩
  · exact ⟨iff_of_false (Ne.symm hHL) h20,
      iff_of_false (Ne.symm hML) (by rintro ⟨hgt, _⟩; exact h10 hgt),
      iff_of_true rfl (by linarith)⟩

/-- C1 witness: a vector with myeloblast probability 3/10, i.e. 30%. -/
theorem assess_risk_thresholds_witness :
    ([(0:ℚ), 3/10, 0, 0, 0][1]? = some (3/10)) ∧
    ((assess_risk classes [(0:ℚ), 3/10, 0, 0, 0]
        = .ok ("High", "Immediate medical attention required") ↔ (3:ℚ)/10 * 100 > 20) ∧
     (assess_risk classes [(0:ℚ), 3/10, 0, 0, 0]
        = .ok ("Moderate", "Further evaluation recommended")
      ↔ ((3:ℚ)/10 * 100 > 10 ∧ (3:ℚ)/10 * 100 ≤ 20)) ∧
     (assess_risk classes [(0:ℚ), 3/10, 0, 0, 0]
        = .ok ("Low", "Regular monitoring advised") ↔ (3:ℚ)/10 * 100 ≤ 10)) :=
  ⟨rfl, assess_risk_thresholds [0, 3/10, 0, 0, 0] (3/10) rfl⟩

/-- C2: the batch risk rule gives "High" iff averaged myeloblast > 20 or
averaged erythroblast > 10, otherwise "Moderate" iff averaged myeloblast > 10
or averaged erythroblast > 5, otherwise "Low", each with the same fixed
message as the single-image path. -/
theorem batch_risk_thresholds (m e : ℚ) :
    (batch_risk m e = ("High", "Immediate medical attention required")
      ↔ (m > 20 ∨ e > 10)) ∧
    (batch_risk m e = ("Moderate", "Further evaluation recommended")
      ↔ (¬(m > 20 ∨ e > 10) ∧ (m > 10 ∨ e > 5))) ∧
    (batch_risk m e = ("Low", "Regular monitoring advised")
      ↔ (¬(m > 20 ∨ e > 10) ∧ ¬(m > 10 ∨ e > 5))) := by
  have hHM : ("High", "Immediate medical attention required")
      ≠ ("Moderate", "Further evaluation recommended") := by decide
  have hHL : ("High", "Immediate medical attention required")
      ≠ ("Low", "Regular monitoring advised") := by decide
  have hML : ("Moderate", "Further evaluation recommended")
      ≠ ("Low", "Regular monitoring advised") := by decide
  unfold batch_risk
  split_ifs with h1 h2
  · exact ⟨iff_of_true rfl h1,
      iff_of_false hHM (by tauto),
      iff_of_false hHL (by tauto)⟩
  · exact ⟨iff_of_false (Ne.symm hHM) h1,
      iff_of_true rfl ⟨h1, h2⟩,
      iff_of_false hML (by tauto)⟩
  · exact ⟨iff_of_false (Ne.symm hHL) h1,
      iff_of_false (Ne.symm hML) (by tauto),
      iff_of_true rfl ⟨h1, h2⟩⟩

/-- C5: the recommendation generator is total and deterministic in the tier
alone: each recognized tier yields its fixed 5-element list, every other
string yields the default single-item list, and no input raises. -/
theorem generate_recommendations_total :
    (generate_recommendations "High").length = 5 ∧
    (generate_recommendations "Moderate").length = 5 ∧
    (generate_recommendations "Low").length = 5 ∧
    (∀ t : String, t ≠ "High" → t ≠ "Moderate" → t ≠ "Low" →
      generate_recommendations t = ["Consult with healthcare provider"]) := by
  refine ⟨rfl, rfl, rfl, ?_⟩
  intro t h1 h2 h3
  unfold generate_recommendations
  rw [if_neg h1, if_neg h2, if_neg h3]

/-- C5 witness: an unrecognized tier string gets the default list. -/
theorem generate_recommendations_total_witness :
    generate_recommendations "Critical" = ["Consult with healthcare provider"] :=
  generate_recommendations_total.2.2.2 "Critical" (by decide) (by decide) (by decide)

/-- C6: `assess_risk` fails with the InvalidInput error (the `ValueError`
guard) when the required myeloblast label is absent from the class list of
the percentage map, rather than succeeding or reaching an index error. -/
theorem assess_risk_missing_label (cs : List String) (predictions : List ℚ)
    (h : "myeloblast" ∉ cs) :
    assess_risk cs predictions = .error .invalidInput := by
  unfold assess_risk
  rw [if_pos h]

/-- C6 witness: a class list without the myeloblast label. -/
theorem assess_risk_missing_label_witness :
    ("myeloblast" ∉ ["monocyte", "basophil"]) ∧
    assess_risk ["monocyte", "basophil"] [(1:ℚ)/2] = .error .invalidInput :=
  ⟨by decide, assess_risk_missing_label _ _ (by decide)⟩

/-- C7: two-run noninterference — any two prediction vectors agreeing on the
myeloblast entry (index 1) get the identical (tier, message) result from
`assess_risk`, whatever the other four values are. -/
theorem assess_risk_noninterference (p q : List ℚ) (h : p[1]? = q[1]?) :
    assess_risk classes p = assess_risk classes q := by
  rw [assess_risk_eq, assess_risk_eq, h]

/-- C7 witness: two vectors equal at index 1 and arbitrary elsewhere. -/
theorem assess_risk_noninterference_witness :
    ([(0:ℚ), 1/4, 0, 0, 0][1]? = [(1:ℚ), 1/4, 9, 9, 9][1]?) ∧
    assess_risk classes [(0:ℚ), 1/4, 0, 0, 0]
      = assess_risk classes [(1:ℚ), 1/4, 9, 9, 9] :=
  ⟨rfl, assess_risk_noninterference _ _ rfl⟩

/-- Componentwise value of the accumulation loop. -/
theorem foldl_addCounts (maps : List CellCounts) (acc : CellCounts) :
    maps.foldl addCounts acc =
      ⟨acc.monocyte + (maps.map CellCounts.monocyte).sum,
       acc.myeloblast + (maps.map CellCounts.myeloblast).sum,
       acc.erythroblast + (maps.map CellCounts.erythroblast).sum,
       acc.segmented_neutrophil + (maps.map CellCounts.segmented_neutrophil).sum,
       acc.basophil + (maps.map CellCounts.basophil).sum⟩ := by
  induction maps generalizing acc with
  | nil => cases acc; simp
  | cons c cs ih =>
    cases acc
    cases c
    simp [List.foldl, addCounts, ih]
    refine ⟨by ring, by ring, by ring, by ring, by ring⟩

/-- Evaluation of the batch body on a non-empty list. -/
theorem analyze_batch_body_ne (maps : List CellCounts) (hne : maps ≠ []) :
    analyze_batch_body maps =
      .ok ⟨divCounts (maps.foldl addCounts zeroCounts) (maps.length : ℚ),
        (batch_risk (divCounts (maps.foldl addCounts zeroCounts) (maps.length : ℚ)).myeloblast
          (divCounts (maps.foldl addCounts zeroCounts) (maps.length : ℚ)).erythroblast).1,
        (batch_risk (divCounts (maps.foldl addCounts zeroCounts) (maps.length : ℚ)).myeloblast
          (divCounts (maps.foldl addCounts zeroCounts) (maps.length : ℚ)).erythroblast).2,
        generate_recommendations
          ((batch_risk (divCounts (maps.foldl addCounts zeroCounts) (maps.length : ℚ)).myeloblast
            (divCounts (maps.foldl addCounts zeroCounts) (maps.length : ℚ)).erythroblast).1)⟩ := by
  unfold analyze_batch_body
  rw [if_neg (show ¬(maps.isEmpty = true) by simpa using hne)]

/-- C3: for every non-empty list of per-image percentage maps, the batch
aggregator returns, for each label, the arithmetic mean and applies the batch risk
rule exactly once to the averaged map; a one-image batch averages to the
own map of the image. -/
theorem analyze_batch_mean :
    (∀ maps : List CellCounts, maps ≠ [] →
      ∃ r : BatchResult, analyze_batch_body maps = .ok r ∧
        r.cell_counts.monocyte = (maps.map CellCounts.monocyte).sum / maps.length ∧
        r.cell_counts.myeloblast = (maps.map CellCounts.myeloblast).sum / maps.length ∧
        r.cell_counts.erythroblast = (maps.map CellCounts.erythroblast).sum / maps.length ∧
        r.cell_counts.segmented_neutrophil
          = (maps.map CellCounts.segmented_neutrophil).sum / maps.length ∧
        r.cell_counts.basophil = (maps.map CellCounts.basophil).sum / maps.length ∧
        (r.risk_level, r.risk_message)
          = batch_risk r.cell_counts.myeloblast r.cell_counts.erythroblast) ∧
    (∀ c : CellCounts, ∃ r : BatchResult,
      analyze_batch_body [c] = .ok r ∧ r.cell_counts = c ∧
      (r.risk_level, r.risk_message) = batch_risk c.myeloblast c.erythroblast) := by
  constructor
  · intro maps hne
    refine ⟨_, analyze_batch_body_ne maps hne, ?_, ?_, ?_, ?_, ?_, rfl⟩ <;>
      simp [divCounts, foldl_addCounts, zeroCounts]
  · intro c
    have hcc : divCounts ([c].foldl addCounts zeroCounts) (([c].length : ℕ) : ℚ) = c := by
      cases c
      simp [divCounts, foldl_addCounts, zeroCounts, addCounts]
    refine ⟨_, analyze_batch_body_ne [c] (by simp), ?_, ?_⟩
    · exact hcc
    · rw [show (divCounts ([c].foldl addCounts zeroCounts) (([c].length : ℕ) : ℚ)) = c from hcc]

/-- C3 witness: a concrete two-image batch. -/
theorem analyze_batch_mean_witness :
    ∃ r : BatchResult,
      analyze_batch_body [⟨1, 30, 2, 3, 4⟩, ⟨3, 10, 4, 5, 6⟩] = .ok r ∧
      r.cell_counts.monocyte
        = (([⟨1, 30, 2, 3, 4⟩, ⟨3, 10, 4, 5, 6⟩] : List CellCounts).map
            CellCounts.monocyte).sum / 2 ∧
      r.cell_counts.myeloblast
        = (([⟨1, 30, 2, 3, 4⟩, ⟨3, 10, 4, 5, 6⟩] : List CellCounts).map
            CellCounts.myeloblast).sum / 2 ∧
      (r.risk_level, r.risk_message)
        = batch_risk r.cell_counts.myeloblast r.cell_counts.erythroblast := by
  obtain ⟨r, hr, h1, h2, _, _, _, hrisk⟩ :=
    analyze_batch_mean.1 [⟨1, 30, 2, 3, 4⟩, ⟨3, 10, 4, 5, 6⟩] (by simp)
  exact ⟨r, hr, by simpa using h1, by simpa using h2, hrisk⟩


/-- C4 support: what the code actually does at N=0. The inner check raises
the 400 "No files uploaded", the endpoint-level catch-all converts it into
the generic 500, and the database state (hence the analyses table) is left
unchanged. -/
theorem analyze_batch_empty_behavior :
    analyze_batch_body ([] : List CellCounts) = .error ⟨400, "No files uploaded"⟩ ∧
    analyze_batch ([] : List CellCounts) = .error ⟨500, "Batch image processing error"⟩ ∧
    (∀ (verify : String → String → Bool) (findRelevant : String → List Info)
       (uid : Nat) (s : DBState),
      applyOp verify findRelevant (.analyzeBatch uid []) s = s) :=
  ⟨rfl, rfl, fun _ _ _ _ => rfl⟩

/-- The history trim (chatbot.py lines 330-332) keeps the length within the
bound whenever it was within the bound before the append. -/
theorem trim_le (h : List HistEntry) (e : HistEntry) (hh : h.length ≤ max_history) :
    ((if (h ++ [e]).length > max_history then
        (h ++ [e]).drop ((h ++ [e]).length - max_history)
      else h ++ [e])).length ≤ max_history := by
  split_ifs with hgt
  · rw [List.length_drop]
    omega
  · simp only [List.length_append, List.length_cons, List.length_nil] at hgt ⊢
    omega

/-- One `get_response` call keeps the history length within the bound. -/
theorem get_response_history_le (f : String → List Info) (q l n : String)
    (h : List HistEntry) (hh : h.length ≤ max_history) :
    ((get_response f q l n h).2).length ≤ max_history := by
  unfold get_response
  cases he : is_emergency q l
  · simp only [he, Bool.false_eq_true, if_false]
    exact trim_le h _ hh
  · simp only [he, if_true]
    exact hh

/-- C10: starting from the empty history of the fresh chatbot, after any sequence
of `get_response` calls the conversation history holds at most
`max_history` (= 5) entries. -/
theorem conversation_history_bounded (findRelevant : String → List Info)
    (queries : List (String × String × String)) :
    (runChat findRelevant queries []).length ≤ max_history := by
  have gen : ∀ (qs : List (String × String × String)) (h : List HistEntry),
      h.length ≤ max_history → (runChat findRelevant qs h).length ≤ max_history := by
    intro qs
    induction qs with
    | nil => intro h hh; simpa [runChat] using hh
    | cons x rest ih =>
      intro h hh
      obtain ⟨q, l, n⟩ := x
      exact ih _ (get_response_history_le findRelevant q l n h hh)
  exact gen queries [] (by simp [max_history])



/-- C8 counterexample: a query containing an emergency keyword makes the
emergency override fire, and the returned dict then has no `relevant_info`
key (only `response`, `is_emergency`, `language`). -/
theorem chat_emergency_missing_relevant_info :
    is_emergency "emergency" "English" = true ∧
    "relevant_info" ∉
      ((get_response (fun _ => []) "emergency" "English"
        "2025-01-01T00:00:00" []).1.map Prod.fst) := by
  constructor
  · decide
  · decide

/-- C8 (amended): every chat response carries the keys `response` and
`is_emergency`; when the emergency override fires the response is the canned
emergency message with `is_emergency` true and no `relevant_info` key;
otherwise `relevant_info` is present (with `language` and `timestamp`). -/
theorem get_response_keys (findRelevant : String → List Info)
    (query language now : String) (hist : List HistEntry) :
    ("response" ∈ (get_response findRelevant query language now hist).1.map Prod.fst) ∧
    ("is_emergency" ∈ (get_response findRelevant query language now hist).1.map Prod.fst) ∧
    (is_emergency query language = true →
      (get_response findRelevant query language now hist).1 =
        [("response", ChatVal.str (canned_emergency language)),
         ("is_emergency", ChatVal.bool true),
         ("language", ChatVal.str language)] ∧
      "relevant_info" ∉
        (get_response findRelevant query language now hist).1.map Prod.fst) ∧
    (is_emergency query language = false →
      "relevant_info" ∈ (get_response findRelevant query language now hist).1.map Prod.fst ∧
      (get_response findRelevant query language now hist).1.map Prod.fst =
        ["response", "is_emergency", "relevant_info", "language", "timestamp"]) := by
  unfold get_response
  cases he : is_emergency query language
  · simp [he, canned_emergency]
  · simp [he, canned_emergency]

/-- C8 witness: the emergency conjunct discharged at an emergency query and
the non-emergency conjunct at a plain query. -/
theorem get_response_keys_witness :
    (is_emergency "emergency" "English" = true) ∧
    ((get_response (fun _ => []) "emergency" "English" "t0" []).1 =
      [("response", ChatVal.str (canned_emergency "English")),
       ("is_emergency", ChatVal.bool true),
       ("language", ChatVal.str "English")] ∧
     "relevant_info" ∉
       (get_response (fun _ => []) "emergency" "English" "t0" []).1.map Prod.fst) ∧
    (is_emergency "hello" "English" = false) ∧
    ("relevant_info" ∈
       (get_response (fun _ => []) "hello" "English" "t0" []).1.map Prod.fst ∧
     (get_response (fun _ => []) "hello" "English" "t0" []).1.map Prod.fst =
       ["response", "is_emergency", "relevant_info", "language", "timestamp"]) :=
  ⟨by decide,
   (get_response_keys (fun _ => []) "emergency" "English" "t0" []).2.2.1 (by decide),
   by decide,
   (get_response_keys (fun _ => []) "hello" "English" "t0" []).2.2.2 (by decide)⟩

/-- Auxiliary for C9: updating the last-login timestamp of the user row with
a given username preserves membership up to the structural fields. -/
theorem setLastLogin_mem (name : String) (now : Nat) :
    ∀ (us : List UserRec) (u : UserRec), u ∈ us →
      ∃ v ∈ setLastLogin name now us, sameCore u v := by
  intro us
  induction us with
  | nil => intro u hu; cases hu
  | cons a as ih =>
    intro u hu
    rcases List.mem_cons.mp hu with h | h
    · subst h
      unfold setLastLogin
      split_ifs with ha
      · exact ⟨{ u with last_login := some now }, List.mem_cons_self _ _,
          by simp [sameCore]⟩
      · exact ⟨u, List.mem_cons_self _ _, by simp [sameCore]⟩
    · unfold setLastLogin
      split_ifs with ha
      · exact ⟨u, List.mem_cons_of_mem _ h, by simp [sameCore]⟩
      · obtain ⟨v, hv, hc⟩ := ih u h
        exact ⟨v, List.mem_cons_of_mem _ hv, hc⟩

/-- C9: no endpoint structurally mutates an existing User row — after any
operation every pre-existing user is still present with the same id,
username, email, hashed_password, role and created_at, and every operation
other than login also leaves last_login unchanged. -/
theorem user_fields_frame (verify : String → String → Bool)
    (findRelevant : String → List Info) (op : Op) (s : DBState)
    (u : UserRec) (hu : u ∈ s.users) :
    ∃ v ∈ (applyOp verify findRelevant op s).users,
      sameCore u v ∧ (isLogin op = false → v.last_login = u.last_login) := by
  have triv : sameCore u u := by simp [sameCore]
  cases op with
  | register username email role hashed_password id createdAt =>
    simp only [applyOp]
    split_ifs with h1 h2
    · exact ⟨u, hu, triv, fun _ => rfl⟩
    · exact ⟨u, hu, triv, fun _ => rfl⟩
    · exact ⟨u, List.mem_append_left _ hu, triv, fun _ => rfl⟩
  | login username password now =>
    simp only [applyOp]
    cases hf : s.users.find? (fun v => v.username == username) with
    | none =>
      exact ⟨u, hu, triv, fun _ => rfl⟩
    | some u0 =>
      dsimp only
      split_ifs with hv
      · obtain ⟨v, hv2, hc⟩ := setLastLogin_mem username now s.users u hu
        exact ⟨v, hv2, hc, fun hfalse => nomatch hfalse⟩
      · exact ⟨u, hu, triv, fun _ => rfl⟩
  | analyzeBatch userId maps =>
    simp only [applyOp]
    cases hb : analyze_batch_body maps with
    | error e => exact ⟨u, hu, triv, fun _ => rfl⟩
    | ok r => exact ⟨u, hu, triv, fun _ => rfl⟩
  | chat userId text language now =>
    exact ⟨u, hu, triv, fun _ => rfl⟩
  | createAppointment patientId doctorId date notes =>
    simp only [applyOp]
    split_ifs with h
    · exact ⟨u, hu, triv, fun _ => rfl⟩
    · exact ⟨u, hu, triv, fun _ => rfl⟩
  | getReports userId => exact ⟨u, hu, triv, fun _ => rfl⟩
  | getPatients => exact ⟨u, hu, triv, fun _ => rfl⟩
  | getPatientHistory patientId => exact ⟨u, hu, triv, fun _ => rfl⟩
  | getAppointments userId => exact ⟨u, hu, triv, fun _ => rfl⟩
  | getDoctors => exact ⟨u, hu, triv, fun _ => rfl⟩
  | getActivePatients => exact ⟨u, hu, triv, fun _ => rfl⟩

/-- C9 witness: a one-user state and the doctor-listing endpoint. -/
theorem user_fields_frame_witness :
    ((⟨1, "doc", "d@example.com", "hash", "doctor", true, 0, none⟩ : UserRec) ∈
      (⟨[⟨1, "doc", "d@example.com", "hash", "doctor", true, 0, none⟩],
        [], [], [], []⟩ : DBState).users) ∧
    ∃ v ∈ (applyOp (fun _ _ => true) (fun _ => []) Op.getPatients
        ⟨[⟨1, "doc", "d@example.com", "hash", "doctor", true, 0, none⟩],
          [], [], [], []⟩).users,
      sameCore ⟨1, "doc", "d@example.com", "hash", "doctor", true, 0, none⟩ v ∧
      (isLogin Op.getPatients = false →
        v.last_login =
          (⟨1, "doc", "d@example.com", "hash", "doctor", true, 0, none⟩ : UserRec).last_login) :=
  ⟨List.mem_singleton_self _,
   user_fields_frame (fun _ _ => true) (fun _ => []) Op.getPatients _ _
     (List.mem_singleton_self _)⟩


end AL
